import Mathlib

/-!
Verification of the authenticated-request subsystem of an n8n DocuSign
integration: JWT token caching (`DocuSignApi.credentials`), the sanitized
error pipeline, retry/backoff loop and paginator (`helpers`), and the
webhook receiver (`DocuSignTrigger.node`).  Each TypeScript function the
claims touch is embedded as an executable Lean definition; JavaScript
truthiness (`0`, `""`, `undefined`, `null` are falsy) is made explicit via
`Option` and dedicated `jsOr*` combinators.
-/

namespace DocuSign

/-- JS `a || b` on optional strings: an absent or empty string falls back. -/
def jsOrStr (a b : Option String) : Option String :=
  match a with
  | some s => if s = "" then b else some s
  | none => b

/-- JS `a || b` on optional numbers: an absent or zero value falls back. -/
def jsOrNat (a b : Option Nat) : Option Nat :=
  match a with
  | some n => if n = 0 then b else some n
  | none => b

/-- Predicate `startsWithList hay needle` : `needle` is a leading segment of `hay`
(character-by-character model of `String.prototype.startsWith`). -/
def startsWithList : List Char → List Char → Bool
  | _, [] => true
  | [], _ :: _ => false
  | a :: as, b :: bs => a = b && startsWithList as bs

/-- Predicate `hasSubstrList hay needle` : `needle` occurs contiguously inside `hay`
(character-by-character model of `String.prototype.includes`). -/
def hasSubstrList : List Char → List Char → Bool
  | hay, needle =>
    if startsWithList hay needle then true
    else
      match hay with
      | [] => false
      | _ :: t => hasSubstrList t needle

/-- Model of `s.includes(pat)` from JavaScript. -/
def strIncludes (s pat : String) : Bool :=
  hasSubstrList s.data pat.data

/-- Model of `s.startsWith(pat)` from JavaScript. -/
def strStartsWith (s pat : String) : Bool :=
  startsWithList s.data pat.data

/-- ASCII lowercasing of a string, modelling `s.toLowerCase()` on the
ASCII inputs the claims quantify over. -/
def strToLower (s : String) : String :=
  ⟨s.data.map Char.toLower⟩

/-- Model of `s.substring(0, n)`. -/
def strTake (s : String) (n : Nat) : String :=
  ⟨s.data.take n⟩

/-! ## TokenManager (`DocuSignApi.credentials`) -/

/-- Token cache entry with expiration tracking (interface `TokenCacheEntry`). -/
structure TokenCacheEntry where
  accessToken : String
  expiresAt : Int
  deriving Repr, DecidableEq

/-- Buffer time before token expiration to refresh (5 minutes), the source
constant `TOKEN_EXPIRY_BUFFER_MS`. -/
def TOKEN_EXPIRY_BUFFER_MS : Int := 5 * 60 * 1000

/-- The composite cache key `` `${integrationKey}:${userId}:${authServer}` ``
computed inside `getOrRefreshAccessToken`. -/
def cacheKey (integrationKey userId authServer : String) : String :=
  integrationKey ++ ":" ++ userId ++ ":" ++ authServer

/-- Lookup `tokenCache.get`, the cache modelled as an association list. -/
def cacheGet (cache : List (String × TokenCacheEntry)) (k : String) :
    Option TokenCacheEntry :=
  match cache with
  | [] => none
  | (k', v) :: rest => if k' = k then some v else cacheGet rest k

/-- Update `tokenCache.set`: insert or replace the entry for a key. -/
def cacheSet (cache : List (String × TokenCacheEntry)) (k : String)
    (v : TokenCacheEntry) : List (String × TokenCacheEntry) :=
  match cache with
  | [] => [(k, v)]
  | (k', v') :: rest =>
    if k' = k then (k, v) :: rest else (k', v') :: cacheSet rest k v

/-- The safe allow-list of `getAccessToken`'s error sanitizer
(`const safeErrors = ['consent_required', 'invalid_grant', 'invalid_request']`). -/
def safeErrors : List String := ["consent_required", "invalid_grant", "invalid_request"]

/-- The error message thrown by `getAccessToken` when the token endpoint
answers with a non-success HTTP status.  `errorDescription` is the parsed
`error_description` field of the failure body (`none` when the body failed
to parse or the field is absent; JS truthiness makes `""` equivalent to
absent).  The source keeps the full description whenever it *includes* one
of the safe substrings. -/
def authErrorMessage (errorDescription : Option String) : String :=
  match errorDescription with
  | some d =>
    if d ≠ "" ∧ (safeErrors.any fun e => strIncludes d e) then
      "DocuSign authentication failed: " ++ d
    else
      "DocuSign authentication failed"
  | none => "DocuSign authentication failed"

/-- Parsed JSON body of a successful token-endpoint response. -/
structure TokenResponseData where
  access_token : Option String
  expires_in : Option Int
  deriving Repr, DecidableEq

/-- Result of a completed JWT exchange: the token and its lifetime. -/
structure TokenExchange where
  accessToken : String
  expiresIn : Int
  deriving Repr, DecidableEq

/-- The success path of `getAccessToken`: require `access_token` (JS-truthy)
and default `expires_in` to 3600 seconds via `data.expires_in || 3600`
(so `0` is treated like an absent field). -/
def parseTokenSuccess (data : TokenResponseData) : Except String TokenExchange :=
  match data.access_token with
  | none => .error "DocuSign response missing access token"
  | some t =>
    if t = "" then .error "DocuSign response missing access token"
    else
      .ok { accessToken := t
            expiresIn :=
              match data.expires_in with
              | some v => if v = 0 then 3600 else v
              | none => 3600 }

/-- Model of `getOrRefreshAccessToken`: return the cached token while it is still
live (`expiresAt > now + TOKEN_EXPIRY_BUFFER_MS`), otherwise run the JWT
exchange (`generateJWT` + `getAccessToken`, abstracted as its outcome
`exchange`) and cache `{accessToken, expiresAt := now + expiresIn * 1000}`.
Returns the token together with the updated cache. -/
def getOrRefreshAccessToken (cache : List (String × TokenCacheEntry))
    (now : Int) (integrationKey userId authServer : String)
    (exchange : Except String TokenExchange) :
    Except String (String × List (String × TokenCacheEntry)) :=
  let key := cacheKey integrationKey userId authServer
  let refresh : Except String (String × List (String × TokenCacheEntry)) :=
    match exchange with
    | .error e => .error e
    | .ok t =>
      .ok (t.accessToken,
           cacheSet cache key
             { accessToken := t.accessToken
               expiresAt := now + t.expiresIn * 1000 })
  match cacheGet cache key with
  | some cached =>
    if cached.expiresAt > now + TOKEN_EXPIRY_BUFFER_MS then
      .ok (cached.accessToken, cache)
    else refresh
  | none => refresh

/-! ## RequestExecutor error pipeline (`helpers`) -/

/-- The shape of an error object thrown by the HTTP layer and inspected by
`getErrorMessage`, `isRateLimitError`, `isRetryableError` and
`getRetryAfterSeconds`: `message`, `statusCode`, `code`, the nested
`response.statusCode`, `response.body.errorCode`, `response.body.message`,
and the two rate-limit headers (already run through `parseInt`, `none`
standing for an absent header or a `NaN` parse). -/
structure ApiErrorObj where
  message : Option String
  statusCode : Option Nat
  respStatusCode : Option Nat
  respErrorCode : Option String
  respMessage : Option String
  code : Option String
  retryAfterHeader : Option Int
  rateLimitResetHeader : Option Int
  deriving Repr, DecidableEq

/-- An `ApiErrorObj` with every field absent. -/
def ApiErrorObj.empty : ApiErrorObj :=
  ⟨none, none, none, none, none, none, none, none⟩

/-- The static `ERROR_MESSAGES` table mapping HTTP status codes to
user-facing descriptions. -/
def errorTable (c : Nat) : Option String :=
  match c with
  | 400 => some "Bad Request: The request was invalid or malformed"
  | 401 => some "Unauthorized: Invalid or missing credentials. Check your API keys."
  | 403 => some "Forbidden: You do not have permission to access this resource"
  | 404 => some "Not Found: The requested resource does not exist"
  | 409 => some "Conflict: The resource already exists or there is a conflict"
  | 422 => some "Unprocessable Entity: The request data is invalid"
  | 429 => some "Rate Limited: Too many requests. Please wait before retrying"
  | 500 => some "Internal Server Error: Something went wrong on DocuSign servers"
  | 502 => some "Bad Gateway: DocuSign is temporarily unavailable"
  | 503 => some "Service Unavailable: DocuSign is temporarily unavailable"
  | _ => none

/-- The generic message substituted when a raw error message mentions
credential material. -/
def authFailedMessage : String := "Authentication failed. Please check your credentials."

/-- The `err.message` fallback branch of `getErrorMessage`: a JS-truthy
message whose lowercase form includes `token`, `key` or `secret` is replaced
wholesale; otherwise it is truncated to 200 characters. -/
def messageBranch (e : ApiErrorObj) : String :=
  match e.message with
  | some m =>
    if m ≠ "" then
      if strIncludes (strToLower m) "token" ∨ strIncludes (strToLower m) "key" ∨
          strIncludes (strToLower m) "secret" then
        authFailedMessage
      else strTake m 200
    else "An unknown error occurred"
  | none => "An unknown error occurred"

/-- The tail of `getErrorMessage` once the response-body branch has not
fired: the status-code table (a JS-truthy status with a table entry),
falling back to the filtered `err.message` branch. -/
def tableOrMessage (e : ApiErrorObj) : String :=
  match jsOrNat e.statusCode e.respStatusCode with
  | some c =>
    if c ≠ 0 ∧ (errorTable c).isSome then (errorTable c).getD ""
    else messageBranch e
  | none => messageBranch e

/-- Model of `getErrorMessage` from `helpers`: prefer the DocuSign response-body
message (`errorCode: message` truncated to 200 characters, with *no*
credential filter), then the static status-code table, then the filtered
`err.message`, then a generic default.  The argument is `none` when the
thrown value is not an object. -/
def getErrorMessage (err : Option ApiErrorObj) : String :=
  match err with
  | none => "An unknown error occurred"
  | some e =>
    match e.respMessage with
    | some m =>
      if m ≠ "" then
        let errorCode := e.respErrorCode.getD ""
        let safeMessage := strTake m 200
        if errorCode ≠ "" then errorCode ++ ": " ++ safeMessage else safeMessage
      else tableOrMessage e
    | none => tableOrMessage e

/-! ## RequestExecutor retry loop (`docuSignApiRequest`) -/

/-- Model of `isRateLimitError`: the error carries HTTP status 429 directly or on its
nested response. -/
def isRateLimitError (e : ApiErrorObj) : Bool :=
  e.statusCode == some 429 || e.respStatusCode == some 429

/-- Model of `isRetryableError`: a 5xx status (after the JS `||` fallback from
`statusCode` to `response.statusCode`) or one of the three transport-level
error codes. -/
def isRetryableError (e : ApiErrorObj) : Bool :=
  (match jsOrNat e.statusCode e.respStatusCode with
   | some c => decide (500 ≤ c) && decide (c < 600)
   | none => false)
  || e.code == some "ECONNRESET" || e.code == some "ETIMEDOUT"
  || e.code == some "ECONNREFUSED"

/-- Model of `getRetryAfterSeconds`: a positive `Retry-After` header wins; otherwise
a `X-RateLimit-Reset` epoch that lies in the future yields the wait
duration; otherwise nothing. -/
def getRetryAfterSeconds (e : ApiErrorObj) (nowSeconds : Int) : Option Int :=
  match e.retryAfterHeader with
  | some s =>
    if s > 0 then some s
    else nextHeader e nowSeconds
  | none => nextHeader e nowSeconds
where
  /-- The `x-ratelimit-reset` fallback inside `getRetryAfterSeconds`. -/
  nextHeader (e : ApiErrorObj) (nowSeconds : Int) : Option Int :=
    match e.rateLimitResetHeader with
    | some resetTime =>
      let waitSeconds := resetTime - nowSeconds
      if waitSeconds > 0 then some waitSeconds else none
    | none => none

/-- Maximum number of retry attempts (`MAX_RETRIES`). -/
def MAX_RETRIES : Nat := 3

/-- Base delay for exponential backoff in milliseconds (`BASE_RETRY_DELAY_MS`). -/
def BASE_RETRY_DELAY_MS : Nat := 1000

/-- Trace of one `docuSignApiRequest` run: how many HTTP attempts were
issued, the sleeps (in ms) between them, and either the successful response
(abstracted) or the sanitized error message of the final `NodeApiError`. -/
structure RequestTrace where
  attempts : Nat
  sleeps : List Int
  outcome : Except String Unit
  deriving Repr

/-- One step of the `for (attempt = 0; attempt <= MAX_RETRIES; attempt++)`
loop of `docuSignApiRequest`, driven by the outcome each attempt receives
(`responses n` is what attempt `n` produces).  `fuel` is the number of
retries still allowed (`MAX_RETRIES - attempt`), so `fuel = 0` exactly when
`attempt < MAX_RETRIES` is false in the source. -/
def requestAttempts (responses : Nat → Except ApiErrorObj Unit)
    (nowSeconds : Int) :
    Nat → Nat → List Int → RequestTrace
  | fuel, attempt, sleeps =>
    match responses attempt with
    | .ok _ => ⟨attempt + 1, sleeps, .ok ()⟩
    | .error e =>
      let throwTrace : RequestTrace :=
        ⟨attempt + 1, sleeps, .error (getErrorMessage (some e))⟩
      let client4xx : Bool :=
        match jsOrNat e.statusCode e.respStatusCode with
        | some c => decide (400 ≤ c) && decide (c < 500) && decide (c ≠ 429)
        | none => false
      if client4xx then
        throwTrace
      else
        match fuel with
        | 0 => throwTrace
        | fuel' + 1 =>
          if isRateLimitError e then
            let retryAfter := (getRetryAfterSeconds e nowSeconds).getD 60
            requestAttempts responses nowSeconds fuel' (attempt + 1)
              (sleeps ++ [retryAfter * 1000])
          else if isRetryableError e then
            requestAttempts responses nowSeconds fuel' (attempt + 1)
              (sleeps ++ [(BASE_RETRY_DELAY_MS : Int) * 2 ^ attempt])
          else throwTrace

/-- Model of the control flow of `docuSignApiRequest` as a trace: up to `MAX_RETRIES`
retries after the first attempt. -/
def docuSignApiRequest (responses : Nat → Except ApiErrorObj Unit)
    (nowSeconds : Int) : RequestTrace :=
  requestAttempts responses nowSeconds MAX_RETRIES 0 []

/-! ## Paginator (`docuSignApiRequestAllItems`) -/

/-- Default page size for paginated requests.
Modelled from the spec: the constant `DEFAULT_PAGE_SIZE` lives in the
repository's `constants` module, which is not part of the provided sources;
§4.4 fixes `pageSize=100`. -/
def DEFAULT_PAGE_SIZE : Int := 100

/-- The `timeout = 300000` default of `docuSignApiRequestAllItems`'s
pagination options. -/
def PAGINATION_DEFAULT_TIMEOUT_MS : Int := 300000

/-- One parsed page of a list endpoint: the extracted `resourceKey` array
(item identifiers), and the `parseInt` results of `totalSetSize` and
`endPosition` (`none` = `NaN`). -/
structure PageResponse where
  items : List Nat
  totalSetSize : Option Int
  endPosition : Option Int
  deriving Repr

/-- Trace of one paginated fetch: the `start_position` of every request
issued, and the final item list or the propagated error message. -/
structure PageTrace where
  requests : List Int
  outcome : Except String (List Nat)
  deriving Repr

/-- The `do … while (true)` loop of `docuSignApiRequestAllItems`.
`pages count start` is the outcome of one `docuSignApiRequest` call,
`elapsed k` models `Date.now() - startTime` at the top of iteration `k`.
`fuel` bounds the unbounded source loop; exhausting it yields a marker the
theorems never rely on. -/
def fetchAllAux (pages : Int → Int → Except String PageResponse)
    (elapsed : Nat → Int) (timeoutMs : Int) (maxItems : Option Nat)
    (pageSize : Int) :
    Nat → Nat → Int → List Nat → List Int → PageTrace
  | 0, _, _, _, reqs => ⟨reqs, .error "model fuel exhausted"⟩
  | fuel + 1, iter, startPos, acc, reqs =>
    if timeoutMs > 0 ∧ elapsed iter > timeoutMs then
      ⟨reqs, .error ("Pagination timeout exceeded (" ++ toString timeoutMs ++
        "ms). Retrieved " ++ toString acc.length ++ " items before timeout.")⟩
    else
      match pages pageSize startPos with
      | .error e => ⟨reqs ++ [startPos], .error e⟩
      | .ok resp =>
        let acc' := acc ++ resp.items
        let reqs' := reqs ++ [startPos]
        let continueLoop : PageTrace :=
          match resp.totalSetSize, resp.endPosition with
          | some totalSetSize, some endPosition =>
            if endPosition ≥ totalSetSize - 1 then ⟨reqs', .ok acc'⟩
            else
              fetchAllAux pages elapsed timeoutMs maxItems pageSize
                fuel (iter + 1) (endPosition + 1) acc' reqs'
          | _, _ => ⟨reqs', .ok acc'⟩
        match maxItems with
        | some m =>
          if m ≠ 0 ∧ acc'.length ≥ m then ⟨reqs', .ok (acc'.take m)⟩
          else continueLoop
        | none => continueLoop

/-- Model of `docuSignApiRequestAllItems` as a trace, starting at offset 0 with the
`count` query parameter set to the page size. -/
def docuSignApiRequestAllItems (pages : Int → Int → Except String PageResponse)
    (elapsed : Nat → Int) (timeoutMs : Int) (maxItems : Option Nat)
    (pageSize : Int) (fuel : Nat) : PageTrace :=
  fetchAllAux pages elapsed timeoutMs maxItems pageSize fuel 0 0 [] []

/-! ## Validator (`isValidUrl`) -/

/-- The outcome of `new URL(url)`: the normalized protocol (with trailing
colon, e.g. `"https:"`) and hostname. -/
structure ParsedUrl where
  protocol : String
  hostname : String
  deriving Repr, DecidableEq

/-- The SSRF blocklist of `isValidUrl` (`blockedPatterns`). -/
def blockedPatterns : List String :=
  ["localhost", "127.0.0.1", "0.0.0.0", "::1", "[::1]",
   "10.",
   "172.16.", "172.17.", "172.18.", "172.19.",
   "172.20.", "172.21.", "172.22.", "172.23.",
   "172.24.", "172.25.", "172.26.", "172.27.",
   "172.28.", "172.29.", "172.30.", "172.31.",
   "192.168.",
   "169.254."]

/-- Model of `isValidUrl`: `none` stands for a URL on which `new URL` threw.  Scheme
is restricted to `http:`/`https:` (only `https:` when `requireHttps`), and
the lowercased hostname must neither equal nor start with any blocklist
entry. -/
def isValidUrl (u : Option ParsedUrl) (requireHttps : Bool) : Bool :=
  match u with
  | none => false
  | some p =>
    if requireHttps && p.protocol != "https:" then false
    else if !(p.protocol == "http:" || p.protocol == "https:") then false
    else
      let hostname := strToLower p.hostname
      if blockedPatterns.any fun pat =>
          hostname == pat || strStartsWith hostname pat then false
      else true

/-! ## SHA-256, HMAC and base64 (the `crypto` calls of `verifyWebhookSignature`) -/

/-- The word modulus of SHA-256, 2 to the 32nd. -/
def M32 : Nat := 4294967296

/-- Right rotation of a 32-bit word. -/
def rotr (n w : Nat) : Nat :=
  ((w >>> n) ||| (w <<< (32 - n))) % M32

/-- The eight working variables of the SHA-256 compression function. -/
structure Sha256State where
  a : Nat
  b : Nat
  c : Nat
  d : Nat
  e : Nat
  f : Nat
  g : Nat
  h : Nat
  deriving Repr

/-- SHA-256 initial hash value. -/
def sha256Init : Sha256State :=
  ⟨1779033703, 3144134277, 1013904242, 2773480762,
   1359893119, 2600822924, 528734635, 1541459225⟩

/-- The 64 SHA-256 round constants. -/
def K256 : List Nat :=
  [1116352408, 1899447441, 3049323471, 3921009573, 961987163,
   1508970993, 2453635748, 2870763221, 3624381080, 310598401,
   607225278, 1426881987, 1925078388, 2162078206, 2614888103,
   3248222580, 3835390401, 4022224774, 264347078, 604807628,
   770255983, 1249150122, 1555081692, 1996064986, 2554220882,
   2821834349, 2952996808, 3210313671, 3336571891, 3584528711,
   113926993, 338241895, 666307205, 773529912, 1294757372,
   1396182291, 1695183700, 1986661051, 2177026350, 2456956037,
   2730485921, 2820302411, 3259730800, 3345764771, 3516065817,
   3600352804, 4094571909, 275423344, 430227734, 506948616,
   659060556, 883997877, 958139571, 1322822218, 1537002063,
   1747873779, 1955562222, 2024104815, 2227730452, 2361852424,
   2428436474, 2756734187, 3204031479, 3329325298]

/-- Big-endian bytes of one 32-bit word. -/
def wordBytes (w : Nat) : List Nat :=
  [(w >>> 24) % 256, (w >>> 16) % 256, (w >>> 8) % 256, w % 256]

/-- Big-endian byte serialization of the state, the 32-byte digest. -/
def stateBytes (s : Sha256State) : List Nat :=
  wordBytes s.a ++ wordBytes s.b ++ wordBytes s.c ++ wordBytes s.d ++
  wordBytes s.e ++ wordBytes s.f ++ wordBytes s.g ++ wordBytes s.h

/-- Word-wise modular sum of two states. -/
def addStates (x y : Sha256State) : Sha256State :=
  ⟨(x.a + y.a) % M32, (x.b + y.b) % M32, (x.c + y.c) % M32, (x.d + y.d) % M32,
   (x.e + y.e) % M32, (x.f + y.f) % M32, (x.g + y.g) % M32, (x.h + y.h) % M32⟩

/-- Combine big-endian bytes into 32-bit words. -/
def bytesToWords : List Nat → List Nat
  | b0 :: b1 :: b2 :: b3 :: rest =>
    (((b0 * 256 + b1) * 256 + b2) * 256 + b3) :: bytesToWords rest
  | _ => []

/-- Append the next word of the SHA-256 message schedule. -/
def extendOnce (ws : Array Nat) : Array Nat :=
  let i := ws.size
  let w15 := ws.getD (i - 15) 0
  let w2 := ws.getD (i - 2) 0
  let s0 := (rotr 7 w15) ^^^ (rotr 18 w15) ^^^ (w15 >>> 3)
  let s1 := (rotr 17 w2) ^^^ (rotr 19 w2) ^^^ (w2 >>> 10)
  ws.push ((ws.getD (i - 16) 0 + s0 + ws.getD (i - 7) 0 + s1) % M32)

/-- Extend the message schedule by `n` words. -/
def extendSchedule : Array Nat → Nat → Array Nat
  | ws, 0 => ws
  | ws, n + 1 => extendSchedule (extendOnce ws) n

/-- One SHA-256 compression round for round constant and schedule word `kw`. -/
def roundStep (st : Sha256State) (kw : Nat × Nat) : Sha256State :=
  let S1 := (rotr 6 st.e) ^^^ (rotr 11 st.e) ^^^ (rotr 25 st.e)
  let ch := (st.e &&& st.f) ^^^ ((st.e ^^^ 0xffffffff) &&& st.g)
  let temp1 := (st.h + S1 + ch + kw.1 + kw.2) % M32
  let S0 := (rotr 2 st.a) ^^^ (rotr 13 st.a) ^^^ (rotr 22 st.a)
  let maj := (st.a &&& st.b) ^^^ (st.a &&& st.c) ^^^ (st.b &&& st.c)
  let temp2 := (S0 + maj) % M32
  ⟨(temp1 + temp2) % M32, st.a, st.b, st.c,
   (st.d + temp1) % M32, st.e, st.f, st.g⟩

/-- Compress one 64-byte block into the running state. -/
def compressBlock (st : Sha256State) (block : List Nat) : Sha256State :=
  let ws := extendSchedule (Array.mk (bytesToWords block)) 48
  addStates st ((K256.zip ws.toList).foldl roundStep st)

/-- Split a byte list into 64-byte blocks. -/
def chunks64 : List Nat → List (List Nat)
  | [] => []
  | x :: rest =>
    ((x :: rest).take 64) :: chunks64 ((x :: rest).drop 64)
termination_by l => l.length
decreasing_by simp [List.length_drop]; omega

/-- Big-endian 8-byte serialization of the bit length. -/
def lengthBytes (n : Nat) : List Nat :=
  [(n >>> 56) % 256, (n >>> 48) % 256, (n >>> 40) % 256, (n >>> 32) % 256,
   (n >>> 24) % 256, (n >>> 16) % 256, (n >>> 8) % 256, n % 256]

/-- SHA-256 padding: a `0x80` byte, zeros to 56 mod 64, then the bit length. -/
def padMessage (msg : List Nat) : List Nat :=
  let len := msg.length
  let z := (119 - (len % 64)) % 64
  msg ++ [0x80] ++ List.replicate z 0 ++ lengthBytes (len * 8)

/-- SHA-256 of a byte list. -/
def sha256Bytes (msg : List Nat) : List Nat :=
  stateBytes ((chunks64 (padMessage msg)).foldl compressBlock sha256Init)

/-- HMAC-SHA256 (`crypto.createHmac('sha256', secret)`). -/
def hmacSha256 (key msg : List Nat) : List Nat :=
  let key' := if key.length > 64 then sha256Bytes key else key
  let key64 := key' ++ List.replicate (64 - key'.length) 0
  let opad := key64.map fun b => b ^^^ 0x5c
  let ipad := key64.map fun b => b ^^^ 0x36
  sha256Bytes (opad ++ sha256Bytes (ipad ++ msg))

/-- UTF-8 encoding of one character. -/
def utf8EncodeChar (c : Char) : List Nat :=
  let n := c.toNat
  if n < 0x80 then [n]
  else if n < 0x800 then
    [0xc0 ||| (n >>> 6), 0x80 ||| (n &&& 0x3f)]
  else if n < 0x10000 then
    [0xe0 ||| (n >>> 12), 0x80 ||| ((n >>> 6) &&& 0x3f), 0x80 ||| (n &&& 0x3f)]
  else
    [0xf0 ||| (n >>> 18), 0x80 ||| ((n >>> 12) &&& 0x3f),
     0x80 ||| ((n >>> 6) &&& 0x3f), 0x80 ||| (n &&& 0x3f)]

/-- UTF-8 bytes of a string (`Buffer.from(s)` in Node). -/
def strBytes (s : String) : List Nat :=
  (s.data.map utf8EncodeChar).flatten

/-- The base64 alphabet. -/
def base64Alphabet : List Char :=
  "ABCDEFGHIJKLMNOPQRSTUVWXYZabcdefghijklmnopqrstuvwxyz0123456789+/".data

/-- The base64 character for a 6-bit value. -/
def b64Char (n : Nat) : Char :=
  base64Alphabet.getD n 'A'

/-- Standard base64 encoding with padding (`digest('base64')`). -/
def base64Encode : List Nat → List Char
  | [] => []
  | [a] => [b64Char (a / 4), b64Char ((a % 4) * 16), '=', '=']
  | [a, b] => [b64Char (a / 4), b64Char ((a % 4) * 16 + b / 16),
               b64Char ((b % 16) * 4), '=']
  | a :: b :: c :: rest =>
    b64Char (a / 4) :: b64Char ((a % 4) * 16 + b / 16) ::
    b64Char ((b % 16) * 4 + c / 64) :: b64Char (c % 64) :: base64Encode rest

/-- Base64 of a byte list, as a string. -/
def base64String (l : List Nat) : String :=
  ⟨base64Encode l⟩

/-- Model of `verifyWebhookSignature`: any empty input yields `false`; otherwise the
base64 HMAC-SHA256 digest of the payload is compared with the supplied
signature (`crypto.timingSafeEqual` over the UTF-8 buffers, which throws on
a length mismatch and is caught to `false` — as a whole, string equality). -/
def verifyWebhookSignature (payload signature secret : String) : Bool :=
  if payload = "" || signature = "" || secret = "" then false
  else base64String (hmacSha256 (strBytes secret) (strBytes payload)) == signature

/-! ## Webhook receiver (`DocuSignTrigger.webhook`) -/

/-- The `sender` object inside an envelope summary. -/
structure WebhookSender where
  email : Option String
  userName : Option String
  deriving Repr, DecidableEq

/-- The envelope-summary-shaped fields the receiver reads
(`envelopeId`, `status`, `emailSubject`, `sender`, `recipients`,
`documents`; the latter two kept opaque). -/
structure EnvelopeSummaryObj where
  envelopeId : Option String
  status : Option String
  emailSubject : Option String
  sender : Option WebhookSender
  recipients : Option String
  documents : Option String
  deriving Repr, DecidableEq

/-- An object with none of the summary fields (`{}`). -/
def emptySummary : EnvelopeSummaryObj :=
  ⟨none, none, none, none, none, none⟩

/-- The `body.data` object: it may carry a nested `envelopeSummary`, and it
can itself be read as a summary-shaped object (the
`envelopeData.envelopeSummary || envelopeData` fallback). -/
structure WebhookDataObj where
  envelopeSummary : Option EnvelopeSummaryObj
  selfFields : EnvelopeSummaryObj
  deriving Repr, DecidableEq

/-- The parsed webhook body: the `event` tag, the `data` object, the
top-level fallback fields, and the generation timestamp the payload carries
for replay assessment (epoch ms).  The source never reads
`generatedDateTime`. -/
structure WebhookBody where
  event : Option String
  data : Option WebhookDataObj
  envelopeId : Option String
  status : Option String
  emailSubject : Option String
  generatedDateTime : Option Int
  deriving Repr, DecidableEq

/-- The structured event object forwarded on acceptance. -/
structure WebhookOutput where
  event : String
  timestamp : String
  envelopeId : Option String
  status : Option String
  emailSubject : Option String
  senderEmail : Option String
  senderName : Option String
  recipients : Option String
  documents : Option String
  rawPayload : WebhookBody
  deriving Repr, DecidableEq

/-- Outcome of `this.getCredentials('docuSignApi')` as far as the webhook
cares: the call threw, or it returned a `webhookSecret` (possibly empty =
not configured). -/
inductive CredsResult where
  | failed : CredsResult
  | ok (webhookSecret : String) : CredsResult
  deriving Repr, DecidableEq

/-- The three possible webhook responses: an error response with HTTP
status and `{error}` body, the 200 `{received, filtered}` response, or a
triggered workflow carrying the structured event. -/
inductive WebhookResult where
  | reject (status : Nat) (error : String) : WebhookResult
  | filtered : WebhookResult
  | accepted (out : WebhookOutput) : WebhookResult
  deriving Repr, DecidableEq

/-- The event-filtering and output-building tail of the webhook handler
(everything after signature verification). -/
def webhookProcess (body : WebhookBody) (selectedEvents : List String)
    (nowIso : String) : WebhookResult :=
  let eventType := body.event.getD ""
  if selectedEvents.length > 0 && !(selectedEvents.contains eventType) then
    .filtered
  else
    let summary : EnvelopeSummaryObj :=
      match body.data with
      | some d =>
        match d.envelopeSummary with
        | some s => s
        | none => d.selfFields
      | none => emptySummary
    .accepted
      { event := eventType
        timestamp := nowIso
        envelopeId := jsOrStr summary.envelopeId body.envelopeId
        status := jsOrStr summary.status body.status
        emailSubject := jsOrStr summary.emailSubject body.emailSubject
        senderEmail := match summary.sender with
                       | some s => s.email
                       | none => none
        senderName := match summary.sender with
                      | some s => s.userName
                      | none => none
        recipients := summary.recipients
        documents := summary.documents
        rawPayload := body }

/-- Model of `DocuSignTrigger.webhook`: signature gate (when enabled) followed by
event filtering and output building.  `rawBody` is `JSON.stringify(body)`,
`signatureHeader` the `x-docusign-signature-1` header, `nowIso` the
`new Date().toISOString()` stamp put into the output. -/
def webhook (verifySignature : Bool) (signatureHeader : Option String)
    (creds : CredsResult) (rawBody : String) (body : WebhookBody)
    (selectedEvents : List String) (nowIso : String) : WebhookResult :=
  if verifySignature then
    match signatureHeader with
    | none => .reject 401 "Missing signature header"
    | some sig =>
      if sig = "" then .reject 401 "Missing signature header"
      else
        match creds with
        | .failed => .reject 500 "Signature verification failed"
        | .ok webhookSecret =>
          if webhookSecret = "" then
            .reject 500 "Webhook secret not configured in credentials"
          else if !(verifyWebhookSignature rawBody sig webhookSecret) then
            .reject 401 "Invalid signature"
          else webhookProcess body selectedEvents nowIso
  else webhookProcess body selectedEvents nowIso

/-! ## Auxiliary definitions used by the claim statements -/

/-- The shapes an error message surfaced by the request pipeline can take:
a DocuSign response-body message (optionally `errorCode`-prefixed) truncated
to 200 characters, a static table entry, the generic
authentication-failure substitute, a truncated `err.message` guaranteed
free of `token`/`key`/`secret`, or the unknown-error default. -/
def sanitizedShape (e : ApiErrorObj) (r : String) : Prop :=
  (∃ m, e.respMessage = some m ∧ m ≠ "" ∧
    (r = strTake m 200 ∨
      ∃ c, e.respErrorCode = some c ∧ c ≠ "" ∧ r = c ++ ": " ++ strTake m 200))
  ∨ (∃ c, jsOrNat e.statusCode e.respStatusCode = some c ∧ errorTable c = some r)
  ∨ r = authFailedMessage
  ∨ (∃ m, e.message = some m ∧ r = strTake m 200 ∧
      strIncludes (strToLower m) "token" = false ∧
      strIncludes (strToLower m) "key" = false ∧
      strIncludes (strToLower m) "secret" = false)
  ∨ r = "An unknown error occurred"

/-- The webhook handler's only rejection responses: the four fixed
authentication/configuration errors.  In particular no response ever
reports an expired or replayed event. -/
def rejectOnly : WebhookResult → Prop
  | .reject s e =>
    (s, e) ∈ [(401, "Missing signature header"),
              (500, "Webhook secret not configured in credentials"),
              (401, "Invalid signature"),
              (500, "Signature verification failed")]
  | _ => True

/-- Two webhook results make the same decision (same rejection, both
filtered, or both accepted). -/
def sameDecision : WebhookResult → WebhookResult → Prop
  | .reject s e, .reject s' e' => s = s' ∧ e = e'
  | .filtered, .filtered => True
  | .accepted _, .accepted _ => True
  | _, _ => False

/-- A webhook body whose generation timestamp is the epoch — hence, from
any later vantage point, older than every replay window. -/
def staleBody : WebhookBody :=
  { event := some "envelope-completed"
    data := none
    envelopeId := some "env-1"
    status := some "completed"
    emailSubject := none
    generatedDateTime := some 0 }

/-- A server on which every attempt answers HTTP 500. -/
def allServer500 : Nat → Except ApiErrorObj Unit := fun _ =>
  .error { ApiErrorObj.empty with statusCode := some 500 }

/-- A list endpoint holding 250 items served in pages of 100:
`endPosition` 99, 199 and 249, `totalSetSize` 250. -/
def pages250 : Int → Int → Except String PageResponse := fun _count s =>
  if s = 0 then .ok ⟨List.range' 0 100, some 250, some 99⟩
  else if s = 100 then .ok ⟨List.range' 100 100, some 250, some 199⟩
  else if s = 200 then .ok ⟨List.range' 200 50, some 250, some 249⟩
  else .error "unexpected start position"

/-! ## Helper lemmas -/

lemma strData_append (s t : String) : (s ++ t).data = s.data ++ t.data := by
  cases s; cases t; rfl

lemma strExt {s t : String} (h : s.data = t.data) : s = t := by
  cases s; cases t; exact congrArg String.mk h

/-! ## C1 — token-endpoint error sanitizer -/

/-- C1: the claim is false as stated — the allow-list check is substring
containment, not membership.  A description that merely *contains*
`invalid_grant` but is not one of the three safe descriptions is forwarded
verbatim inside a non-generic message. -/
theorem C1_counterexample :
    authErrorMessage (some "invalid_grant: user account is suspended")
      = "DocuSign authentication failed: invalid_grant: user account is suspended"
    ∧ "invalid_grant: user account is suspended" ∉ safeErrors
    ∧ authErrorMessage (some "invalid_grant: user account is suspended")
      ≠ "DocuSign authentication failed" := by
  refine ⟨by rfl, by decide, by decide⟩

/-- C1 (amended): on a non-success token-endpoint status the raised message
is the forwarded form `DocuSign authentication failed: ‹description›`
exactly when the description is nonempty and *contains* one of
`consent_required`, `invalid_grant`, `invalid_request` as a substring;
a description containing none of them (or an absent/unparsable body)
yields the bare generic message. -/
theorem C1_auth_error_allowlist (d : String) :
    (authErrorMessage (some d) = "DocuSign authentication failed: " ++ d
      ↔ (d ≠ "" ∧ (safeErrors.any fun e => strIncludes d e) = true))
    ∧ (((safeErrors.any fun e => strIncludes d e) = false ∨ d = "") →
        authErrorMessage (some d) = "DocuSign authentication failed")
    ∧ authErrorMessage none = "DocuSign authentication failed" := by
  refine ⟨?_, ?_, rfl⟩
  · simp only [authErrorMessage]
    split_ifs with hc
    · simp [hc]
    · constructor
      · intro h
        exfalso
        have h2 := congrArg (fun s => s.data.length) h
        simp [strData_append] at h2
      · intro h
        exact absurd h (by tauto)
  · intro h
    simp only [authErrorMessage]
    split_ifs with hc
    · rcases h with h | h
      · rw [hc.2] at h
        cases h
      · exact absurd h hc.1
    · rfl

/-- C1 witness: a description containing no safe substring is replaced by
the generic message. -/
theorem C1_auth_error_allowlist_witness :
    authErrorMessage (some "internal server meltdown 0x7f") =
      "DocuSign authentication failed" :=
  (C1_auth_error_allowlist "internal server meltdown 0x7f").2.1 (Or.inl (by decide))

/-! ## C3 — token cache expiry buffer -/

/-- C3: a cached entry is returned untouched exactly when
`expiresAt > now + 300000`; at or below the buffer the cached entry is
ignored and the result is entirely determined by the fresh JWT exchange
(whose token, on success, replaces the entry). -/
theorem C3_cache_expiry_buffer (cache : List (String × TokenCacheEntry))
    (now : Int) (integrationKey userId authServer : String)
    (exchange : Except String TokenExchange) (cached : TokenCacheEntry)
    (hget : cacheGet cache (cacheKey integrationKey userId authServer) = some cached) :
    TOKEN_EXPIRY_BUFFER_MS = 300000
    ∧ (cached.expiresAt > now + 300000 →
        getOrRefreshAccessToken cache now integrationKey userId authServer exchange
          = .ok (cached.accessToken, cache))
    ∧ (cached.expiresAt ≤ now + 300000 →
        getOrRefreshAccessToken cache now integrationKey userId authServer exchange
          = match exchange with
            | .error e => .error e
            | .ok t => .ok (t.accessToken,
                cacheSet cache (cacheKey integrationKey userId authServer)
                  ⟨t.accessToken, now + t.expiresIn * 1000⟩)) := by
  have hbuf : TOKEN_EXPIRY_BUFFER_MS = 300000 := by norm_num [TOKEN_EXPIRY_BUFFER_MS]
  refine ⟨hbuf, ?_, ?_⟩
  · intro hlive
    simp only [getOrRefreshAccessToken, hget]
    rw [if_pos (by omega)]
  · intro hstale
    simp only [getOrRefreshAccessToken, hget]
    rw [if_neg (by omega)]

/-- C3 witness: a live entry (expiry far beyond the buffer) is served from
the cache even when the exchange would fail. -/
theorem C3_cache_expiry_buffer_witness :
    getOrRefreshAccessToken [("ik:uid:host", ⟨"cached-tok", 1000000⟩)] 0
      "ik" "uid" "host" (.error "network down")
      = .ok ("cached-tok", [("ik:uid:host", ⟨"cached-tok", 1000000⟩)]) :=
  (C3_cache_expiry_buffer _ 0 "ik" "uid" "host" _ ⟨"cached-tok", 1000000⟩
    (by rfl)).2.1 (by norm_num)

/-! ## C10 — zero `expires_in` falls back to the 3600-second default -/

/-- C10: a token-endpoint success body with `expires_in` equal to `0` is
treated exactly like an absent field — the exchange reports 3600 seconds,
and the token is cached with `expiresAt = now + 3600000`. -/
theorem C10_zero_expires_in (t : String) (ht : t ≠ "")
    (cache : List (String × TokenCacheEntry)) (now : Int)
    (integrationKey userId authServer : String)
    (hmiss : cacheGet cache (cacheKey integrationKey userId authServer) = none) :
    parseTokenSuccess ⟨some t, some 0⟩ = .ok ⟨t, 3600⟩
    ∧ parseTokenSuccess ⟨some t, none⟩ = .ok ⟨t, 3600⟩
    ∧ getOrRefreshAccessToken cache now integrationKey userId authServer
        (parseTokenSuccess ⟨some t, some 0⟩)
      = .ok (t, cacheSet cache (cacheKey integrationKey userId authServer)
              ⟨t, now + 3600000⟩) := by
  have hp : parseTokenSuccess ⟨some t, some 0⟩ = .ok ⟨t, 3600⟩ := by
    simp [parseTokenSuccess, ht]
  have hp' : parseTokenSuccess ⟨some t, none⟩ = .ok ⟨t, 3600⟩ := by
    simp [parseTokenSuccess, ht]
  refine ⟨hp, hp', ?_⟩
  simp only [getOrRefreshAccessToken, hmiss, hp]
  norm_num

/-- C10 witness: concrete exchange with `expires_in = 0` cached for one
hour from `now = 5`. -/
theorem C10_zero_expires_in_witness :
    getOrRefreshAccessToken [] 5 "ik" "uid" "host"
      (parseTokenSuccess ⟨some "fresh-tok", some 0⟩)
      = .ok ("fresh-tok", [("ik:uid:host", ⟨"fresh-tok", 3600005⟩)]) :=
  (C10_zero_expires_in "fresh-tok" (by decide) [] 5 "ik" "uid" "host" (by rfl)).2.2

/-! ## C8 — cache-key isolation -/

lemma colonSplit (a : List Char) :
    ∀ (b rest rest' : List Char), ':' ∉ a → ':' ∉ b →
      a ++ ':' :: rest = b ++ ':' :: rest' → a = b ∧ rest = rest' := by
  induction a with
  | nil =>
    intro b rest rest' _ hb h
    cases b with
    | nil => simpa using h
    | cons y ys =>
      simp at h
      exact absurd (h.1 ▸ List.mem_cons_self y ys) (h.1 ▸ hb)
  | cons x xs ih =>
    intro b rest rest' ha hb h
    cases b with
    | nil =>
      simp at h
      exact absurd (h.1 ▸ List.mem_cons_self x xs) (h.1 ▸ ha)
    | cons y ys =>
      simp at h
      obtain ⟨hxy, htail⟩ := h
      have := ih ys rest rest' (fun hm => ha (List.mem_cons_of_mem x hm))
        (fun hm => hb (List.mem_cons_of_mem y hm)) htail
      exact ⟨by rw [hxy, this.1], this.2⟩

lemma cacheKey_data (integrationKey userId authServer : String) :
    (cacheKey integrationKey userId authServer).data
      = integrationKey.data ++ ':' :: (userId.data ++ ':' :: authServer.data) := by
  simp [cacheKey, strData_append]

/-- C8: the claim is false for arbitrary identifier strings — the
colon-joined key identifies `("a:b", "c")` with `("a", "b:c")`, so two
different (client, subject, host) triples can share a cache key. -/
theorem C8_counterexample :
    cacheKey "a:b" "c" "example.com" = cacheKey "a" "b:c" "example.com"
    ∧ (("a:b", "c", "example.com") : String × String × String)
        ≠ ("a", "b:c", "example.com") := by
  exact ⟨rfl, by decide⟩

/-- C8 (amended): whenever the integration key and user id contain no `:`
character (they are GUID-like identifiers in practice), the composite cache
key is injective — triples differing in any component get distinct keys, so
a token cached for one identity is never served for another. -/
theorem C8_cache_key_isolation (ik1 uid1 as1 ik2 uid2 as2 : String)
    (h1 : ':' ∉ ik1.data) (h2 : ':' ∉ uid1.data)
    (h3 : ':' ∉ ik2.data) (h4 : ':' ∉ uid2.data)
    (hne : (ik1, uid1, as1) ≠ (ik2, uid2, as2)) :
    cacheKey ik1 uid1 as1 ≠ cacheKey ik2 uid2 as2 := by
  intro h
  apply hne
  have hd := congrArg String.data h
  rw [cacheKey_data, cacheKey_data] at hd
  obtain ⟨hik, hrest⟩ := colonSplit _ _ _ _ h1 h3 hd
  obtain ⟨huid, has⟩ := colonSplit _ _ _ _ h2 h4 hrest
  rw [strExt hik, strExt huid, strExt has]

/-- C8 witness: triples differing only in the auth host map to distinct
keys. -/
theorem C8_cache_key_isolation_witness :
    cacheKey "ik" "uid" "account.docusign.com"
      ≠ cacheKey "ik" "uid" "account-d.docusign.com" :=
  C8_cache_key_isolation "ik" "uid" "account.docusign.com"
    "ik" "uid" "account-d.docusign.com"
    (by decide) (by decide) (by decide) (by decide) (by decide)

/-! ## C5 — three consecutive 500s exhaust the retries -/

/-- C5: when every attempt answers HTTP 500, `docuSignApiRequest` issues 4
attempts (the initial call plus `MAX_RETRIES = 3` retries), backs off
1000·2ⁿ ms before each retry (1 s, 2 s, 4 s), and raises the sanitized
table message for 500 — never the raw error. -/
theorem C5_500s_exhaust_retries :
    docuSignApiRequest allServer500 0
      = ⟨4, [1000, 2000, 4000],
          .error "Internal Server Error: Something went wrong on DocuSign servers"⟩
    ∧ MAX_RETRIES = 3 ∧ BASE_RETRY_DELAY_MS = 1000 := by
  exact ⟨rfl, rfl, rfl⟩

/-! ## C7 — pagination over a 250-item collection -/

set_option maxRecDepth 8192 in
/-- C7: against a 250-item resource with 100-item pages,
`docuSignApiRequestAllItems` issues exactly the three requests with
`start_position` 0, 100 and 200 (each `endPosition + 1` of the previous
page) and returns the 250 items in order. -/
theorem C7_paginates_250 :
    docuSignApiRequestAllItems pages250 (fun _ => 0)
      PAGINATION_DEFAULT_TIMEOUT_MS none 100 10
      = ⟨[0, 100, 200], .ok (List.range' 0 250)⟩
    ∧ (List.range' 0 250).length = 250 := by
  refine ⟨rfl, by simp⟩

/-! ## C2 — sanitized error messages -/

lemma messageBranch_shape (e : ApiErrorObj) :
    messageBranch e = authFailedMessage
    ∨ (∃ m, e.message = some m ∧ messageBranch e = strTake m 200 ∧
        strIncludes (strToLower m) "token" = false ∧
        strIncludes (strToLower m) "key" = false ∧
        strIncludes (strToLower m) "secret" = false)
    ∨ messageBranch e = "An unknown error occurred" := by
  rcases hm : e.message with _ | m
  · right; right
    unfold messageBranch
    rw [hm]
  · have heq : messageBranch e =
        if m ≠ "" then
          (if strIncludes (strToLower m) "token" ∨ strIncludes (strToLower m) "key" ∨
              strIncludes (strToLower m) "secret" then authFailedMessage
           else strTake m 200)
        else "An unknown error occurred" := by
      unfold messageBranch
      rw [hm]
    rw [heq]
    split_ifs with h1 h2
    · left; rfl
    · right; left
      simp only [not_or] at h2
      exact ⟨m, rfl, rfl, by simpa using h2.1, by simpa using h2.2.1,
        by simpa using h2.2.2⟩
    · right; right; rfl

lemma tableOrMessage_shape (e : ApiErrorObj) :
    (∃ c, jsOrNat e.statusCode e.respStatusCode = some c
        ∧ errorTable c = some (tableOrMessage e))
    ∨ tableOrMessage e = authFailedMessage
    ∨ (∃ m, e.message = some m ∧ tableOrMessage e = strTake m 200 ∧
        strIncludes (strToLower m) "token" = false ∧
        strIncludes (strToLower m) "key" = false ∧
        strIncludes (strToLower m) "secret" = false)
    ∨ tableOrMessage e = "An unknown error occurred" := by
  rcases hsc : jsOrNat e.statusCode e.respStatusCode with _ | c
  · have heq : tableOrMessage e = messageBranch e := by
      unfold tableOrMessage
      rw [hsc]
    rw [heq]
    exact Or.inr (messageBranch_shape e)
  · have heq : tableOrMessage e =
        if c ≠ 0 ∧ (errorTable c).isSome then (errorTable c).getD ""
        else messageBranch e := by
      unfold tableOrMessage
      rw [hsc]
    rw [heq]
    split_ifs with h
    · left
      obtain ⟨r, hr⟩ := Option.isSome_iff_exists.mp h.2
      exact ⟨c, rfl, by simp [hr]⟩
    · exact Or.inr (messageBranch_shape e)

lemma getErrorMessage_some (e : ApiErrorObj) :
    getErrorMessage (some e)
      = match e.respMessage with
        | some m =>
          if m ≠ "" then
            (if e.respErrorCode.getD "" ≠ "" then
              e.respErrorCode.getD "" ++ ": " ++ strTake m 200
             else strTake m 200)
          else tableOrMessage e
        | none => tableOrMessage e := rfl

/-- C2: the claim is false as stated — the `token`/`key`/`secret` wholesale
replacement is applied only to the generic `err.message` branch.  A
DocuSign response-body message containing `token` is forwarded (truncated)
rather than replaced. -/
theorem C2_counterexample :
    getErrorMessage (some { ApiErrorObj.empty with
        respMessage := some "expired token for user 42" })
      = "expired token for user 42"
    ∧ strIncludes (strToLower "expired token for user 42") "token" = true
    ∧ "expired token for user 42" ≠ authFailedMessage := by
  refine ⟨by decide, by decide, by decide⟩

/-- C2 (amended): every message surfaced by the pipeline is one of: a
response-body message (optionally `errorCode`-prefixed) truncated to 200
characters *without* the credential filter, a static table entry, the
generic authentication-failure substitute, a truncated `err.message` that
provably contains none of `token`/`key`/`secret` (case-insensitively), or
the unknown-error default. -/
theorem C2_error_message_shapes (e : ApiErrorObj) :
    sanitizedShape e (getErrorMessage (some e)) := by
  rcases hrm : e.respMessage with _ | m
  · have heq : getErrorMessage (some e) = tableOrMessage e := by
      rw [getErrorMessage_some, hrm]
    rw [heq]
    unfold sanitizedShape
    exact Or.inr (tableOrMessage_shape e)
  · by_cases hm : m = ""
    · have heq : getErrorMessage (some e) = tableOrMessage e := by
        rw [getErrorMessage_some, hrm]
        simp [hm]
      rw [heq]
      unfold sanitizedShape
      exact Or.inr (tableOrMessage_shape e)
    · rcases hec : e.respErrorCode with _ | c
      · have heq : getErrorMessage (some e) = strTake m 200 := by
          rw [getErrorMessage_some, hrm]
          simp [hm, hec]
        rw [heq]
        unfold sanitizedShape
        exact Or.inl ⟨m, hrm, hm, Or.inl rfl⟩
      · by_cases hc : c = ""
        · have heq : getErrorMessage (some e) = strTake m 200 := by
            rw [getErrorMessage_some, hrm]
            simp [hm, hec, hc]
          rw [heq]
          unfold sanitizedShape
          exact Or.inl ⟨m, hrm, hm, Or.inl rfl⟩
        · have heq : getErrorMessage (some e) = c ++ ": " ++ strTake m 200 := by
            rw [getErrorMessage_some, hrm]
            simp [hm, hec, hc]
          rw [heq]
          unfold sanitizedShape
          exact Or.inl ⟨m, hrm, hm, Or.inr ⟨c, hec, hc, rfl⟩⟩

/-! ## C9 — SSRF blocklist of `isValidUrl` -/

lemma startsWithList_map_toLower (hay pat : List Char)
    (h : startsWithList hay pat = true) :
    startsWithList (hay.map Char.toLower) (pat.map Char.toLower) = true := by
  induction pat generalizing hay with
  | nil => simp [startsWithList]
  | cons b bs ih =>
    cases hay with
    | nil => simp [startsWithList] at h
    | cons a as =>
      simp only [startsWithList, Bool.and_eq_true, decide_eq_true_eq] at h
      simp only [List.map_cons, startsWithList, Bool.and_eq_true, decide_eq_true_eq]
      exact ⟨by rw [h.1], ih as h.2⟩

lemma blockedPatterns_lower :
    ∀ pat ∈ blockedPatterns, pat.data.map Char.toLower = pat.data := by
  decide

/-- C9: any URL whose hostname equals or starts with one of the private /
loopback / link-local blocklist entries is rejected regardless of scheme,
and any URL whose scheme is neither `http:` nor `https:` is rejected. -/
theorem C9_url_blocklist (p : ParsedUrl) (requireHttps : Bool) :
    ((∃ pat ∈ blockedPatterns,
        p.hostname = pat ∨ strStartsWith p.hostname pat = true) →
      isValidUrl (some p) requireHttps = false)
    ∧ ((p.protocol ≠ "http:" ∧ p.protocol ≠ "https:") →
      isValidUrl (some p) requireHttps = false) := by
  constructor
  · rintro ⟨pat, hmem, hcase⟩
    have hany : (blockedPatterns.any fun q =>
        strToLower p.hostname == q || strStartsWith (strToLower p.hostname) q)
        = true := by
      apply List.any_eq_true.mpr
      refine ⟨pat, hmem, ?_⟩
      have hlow : pat.data.map Char.toLower = pat.data := blockedPatterns_lower pat hmem
      simp only [Bool.or_eq_true]
      rcases hcase with heq | hsw
      · left
        apply beq_iff_eq.mpr
        rw [heq]
        exact strExt (by simpa [strToLower] using hlow)
      · right
        have hmap := startsWithList_map_toLower p.hostname.data pat.data hsw
        rw [hlow] at hmap
        simpa [strStartsWith, strToLower] using hmap
    simp [isValidUrl, hany]
  · rintro ⟨hp1, hp2⟩
    have hb : (p.protocol == "http:" || p.protocol == "https:") = false := by
      simp [hp1, hp2]
    simp [isValidUrl, hb]

/-- C9 witness: `http://10.0.0.1` (private range) and `ftp://example.com`
(non-http scheme) are both rejected. -/
theorem C9_url_blocklist_witness :
    isValidUrl (some ⟨"http:", "10.0.0.1"⟩) false = false
    ∧ isValidUrl (some ⟨"ftp:", "example.com"⟩) true = false :=
  ⟨(C9_url_blocklist ⟨"http:", "10.0.0.1"⟩ false).1
      ⟨"10.", by decide, Or.inr (by decide)⟩,
   (C9_url_blocklist ⟨"ftp:", "example.com"⟩ true).2 ⟨by decide, by decide⟩⟩

/-! ## C6 — webhook signature verification -/

lemma stateBytes_length (s : Sha256State) : (stateBytes s).length = 32 := by
  simp [stateBytes, wordBytes]

lemma sha256Bytes_length (msg : List Nat) : (sha256Bytes msg).length = 32 := by
  unfold sha256Bytes
  exact stateBytes_length _

lemma hmacSha256_ne_nil (key msg : List Nat) : hmacSha256 key msg ≠ [] := by
  intro hnil
  have h32 : (hmacSha256 key msg).length = 32 := by
    unfold hmacSha256
    exact sha256Bytes_length _
  rw [hnil] at h32
  simp at h32

lemma base64String_ne_empty {l : List Nat} (h : l ≠ []) : base64String l ≠ "" := by
  cases l with
  | nil => exact absurd rfl h
  | cons a rest =>
    intro he
    have hd := congrArg String.data he
    cases rest with
    | nil => simp [base64String, base64Encode] at hd
    | cons b rest2 =>
      cases rest2 with
      | nil => simp [base64String, base64Encode] at hd
      | cons c rest3 => simp [base64String, base64Encode] at hd

lemma verify_roundtrip (payload secret : String)
    (hp : payload ≠ "") (hs : secret ≠ "") :
    verifyWebhookSignature payload
      (base64String (hmacSha256 (strBytes secret) (strBytes payload))) secret
      = true := by
  have hd : base64String (hmacSha256 (strBytes secret) (strBytes payload)) ≠ "" :=
    base64String_ne_empty (hmacSha256_ne_nil _ _)
  simp [verifyWebhookSignature, hp, hs, hd]

/-- C6: with nonempty payload and secret the correctly signed digest
verifies; any signature string other than the digest is rejected (hence any
mutated signature); a different payload is rejected whenever its digest
differs (any effective payload mutation); and an empty payload, signature
or secret yields `false` rather than an exception. -/
theorem C6_signature_verification (payload secret : String)
    (hp : payload ≠ "") (hs : secret ≠ "") :
    verifyWebhookSignature payload
      (base64String (hmacSha256 (strBytes secret) (strBytes payload))) secret = true
    ∧ (∀ s, s ≠ base64String (hmacSha256 (strBytes secret) (strBytes payload)) →
        verifyWebhookSignature payload s secret = false)
    ∧ (∀ q, base64String (hmacSha256 (strBytes secret) (strBytes q))
          ≠ base64String (hmacSha256 (strBytes secret) (strBytes payload)) →
        verifyWebhookSignature q
          (base64String (hmacSha256 (strBytes secret) (strBytes payload))) secret
          = false)
    ∧ (∀ p s sec, (p = "" ∨ s = "" ∨ sec = "") →
        verifyWebhookSignature p s sec = false) := by
  refine ⟨verify_roundtrip payload secret hp hs, ?_, ?_, ?_⟩
  · intro s hns
    by_cases hse : s = ""
    · simp [verifyWebhookSignature, hse]
    · have hbeq : (base64String (hmacSha256 (strBytes secret) (strBytes payload))
          == s) = false := beq_eq_false_iff_ne.mpr (Ne.symm hns)
      simp [verifyWebhookSignature, hp, hs, hse, hbeq]
  · intro q hq
    by_cases hqe : q = ""
    · simp [verifyWebhookSignature, hqe]
    · have hbeq : (base64String (hmacSha256 (strBytes secret) (strBytes q))
          == base64String (hmacSha256 (strBytes secret) (strBytes payload)))
          = false := beq_eq_false_iff_ne.mpr hq
      simp [verifyWebhookSignature, hqe, hs, hbeq]
  · rintro p s sec (h | h | h) <;> simp [verifyWebhookSignature, h]

/-- C6 witness: a concretely signed payload verifies. -/
theorem C6_signature_verification_witness :
    verifyWebhookSignature "payload-bytes"
      (base64String (hmacSha256 (strBytes "hmac-sec") (strBytes "payload-bytes")))
      "hmac-sec" = true :=
  (C6_signature_verification "payload-bytes" "hmac-sec"
    (by decide) (by decide)).1

/-! ## C4 — no replay check in the webhook receiver -/

lemma rejectOnly_missingSig : rejectOnly (.reject 401 "Missing signature header") := by
  simp [rejectOnly]

lemma rejectOnly_noSecret :
    rejectOnly (.reject 500 "Webhook secret not configured in credentials") := by
  simp [rejectOnly]

lemma rejectOnly_invalidSig : rejectOnly (.reject 401 "Invalid signature") := by
  simp [rejectOnly]

lemma rejectOnly_verifFailed :
    rejectOnly (.reject 500 "Signature verification failed") := by
  simp [rejectOnly]

lemma sameDecision_refl_reject (s : Nat) (e : String) :
    sameDecision (.reject s e) (.reject s e) := ⟨rfl, rfl⟩

lemma webhookProcess_rejectOnly (body : WebhookBody)
    (selectedEvents : List String) (nowIso : String) :
    rejectOnly (webhookProcess body selectedEvents nowIso) := by
  simp only [webhookProcess]
  split_ifs with h
  · exact trivial
  · exact trivial

lemma webhookProcess_decision (body : WebhookBody) (ts : Option Int)
    (selectedEvents : List String) (nowIso : String) :
    sameDecision (webhookProcess body selectedEvents nowIso)
      (webhookProcess { body with generatedDateTime := ts } selectedEvents nowIso) := by
  simp only [webhookProcess]
  split_ifs with h
  · exact trivial
  · exact trivial

/-- C4: the claim is false — the receiver performs no replay check at all.
Every rejection is one of the four signature/configuration errors (never an
expiry rejection), and the accept/filter/reject decision is invariant under
arbitrary changes of the payload's generation timestamp. -/
theorem C4_no_replay_check (verifySignature : Bool) (sig : Option String)
    (creds : CredsResult) (rawBody : String) (body : WebhookBody)
    (selectedEvents : List String) (nowIso : String) (ts : Option Int) :
    rejectOnly (webhook verifySignature sig creds rawBody body selectedEvents nowIso)
    ∧ sameDecision
        (webhook verifySignature sig creds rawBody body selectedEvents nowIso)
        (webhook verifySignature sig creds rawBody
          { body with generatedDateTime := ts } selectedEvents nowIso) := by
  unfold webhook
  by_cases hv : verifySignature
  · simp only [hv, if_true]
    cases sig with
    | none => exact ⟨rejectOnly_missingSig, sameDecision_refl_reject _ _⟩
    | some s =>
      by_cases hse : s = ""
      · simp only [if_pos hse]
        exact ⟨rejectOnly_missingSig, sameDecision_refl_reject _ _⟩
      · simp only [if_neg hse]
        cases creds with
        | failed => exact ⟨rejectOnly_verifFailed, sameDecision_refl_reject _ _⟩
        | ok webhookSecret =>
          by_cases hsec : webhookSecret = ""
          · simp only [if_pos hsec]
            exact ⟨rejectOnly_noSecret, sameDecision_refl_reject _ _⟩
          · simp only [if_neg hsec]
            by_cases hver : verifyWebhookSignature rawBody s webhookSecret
            · simp only [hver, Bool.not_true, Bool.false_eq_true, if_false]
              exact ⟨webhookProcess_rejectOnly _ _ _,
                webhookProcess_decision _ _ _ _⟩
            · simp only [Bool.not_eq_true] at hver
              simp only [hver, Bool.not_false, if_true]
              exact ⟨rejectOnly_invalidSig, sameDecision_refl_reject _ _⟩
  · simp only [hv, if_false]
    exact ⟨webhookProcess_rejectOnly _ _ _, webhookProcess_decision _ _ _ _⟩

/-- C4 counterexample: an event generated at the epoch (timestamp 0),
received in 2026 with verification enabled and a valid signature, is
accepted and forwarded — not rejected as expired, contradicting the claimed
`now - eventTimestamp > 300000` rejection. -/
theorem C4_counterexample :
    webhook true
      (some (base64String (hmacSha256 (strBytes "whsec-key") (strBytes "webhook-raw-body"))))
      (.ok "whsec-key") "webhook-raw-body" staleBody
      ["envelope-completed"] "2026-01-01T00:00:00.000Z"
    = .accepted
        { event := "envelope-completed"
          timestamp := "2026-01-01T00:00:00.000Z"
          envelopeId := some "env-1"
          status := some "completed"
          emailSubject := none
          senderEmail := none
          senderName := none
          recipients := none
          documents := none
          rawPayload := staleBody } := by
  have hver := verify_roundtrip "webhook-raw-body" "whsec-key" (by decide) (by decide)
  have hdig : base64String (hmacSha256 (strBytes "whsec-key") (strBytes "webhook-raw-body"))
      ≠ "" := base64String_ne_empty (hmacSha256_ne_nil _ _)
  unfold webhook
  simp only [if_true]
  rw [if_neg hdig]
  rw [if_neg (by decide : ¬("whsec-key" : String) = "")]
  rw [hver]
  simp only [Bool.not_true, Bool.false_eq_true, if_false]
  decide

end DocuSign
